import Mathlib

/-!
# System-call layer of pintos-kaist (`userprog/syscall.c`)

A shallow embedding of `syscall_handler`, `check_address`, `halt`, `exit`, `fork`, `exec`,
`wait`, `create` and `remove`.

* A C function that may fail to return (`thread_exit`, `power_off`, a successful
  `process_exec`) is a function `World → Res α`, where `Res.ret v w` is a normal return with
  value `v` and `Res.noreturn w` says that control never came back to the caller.
* The external subsystems (process, filesystem, page allocator, page table) are oracles
  collected in `Env`; every call to one of them is appended to `World.trace`.
* The handlers that `syscall.h` declares but `syscall.c` does not define (`open`, `filesize`,
  `read`, `write`, `seek`, `tell`, `close`) are arbitrary state transformers in `Env`.
* Memory is a total map from addresses to bytes: a read gives the byte a readable address
  holds. A fault on an unreadable address is handled outside `syscall.c` and is not
  modelled, so the concrete strings below lie on mapped user pages or in kernel space.
-/

namespace Syscall

/-! ## Machine integers -/

/-- Conversion of a 64-bit register word to C `int` (also `tid_t`): the low 32 bits, read in
two's complement. -/
def to_int (x : Nat) : Int :=
  if x % 2 ^ 32 < 2 ^ 31 then ((x % 2 ^ 32 : Nat) : Int) else ((x % 2 ^ 32 : Nat) : Int) - 2 ^ 32

/-- Conversion of a 64-bit register word to C `unsigned`. -/
def to_unsigned (x : Nat) : Nat := x % 2 ^ 32

/-- Conversion of an `int` result to the 64-bit register `rax`: sign extension. -/
def of_int (v : Int) : Nat := (v % 2 ^ 64).toNat

/-- Conversion of a `bool` result to the 64-bit register `rax`. -/
def of_bool (b : Bool) : Nat := if b then 1 else 0

/-! ## Constants of headers that are not part of the sources -/

/-- Modelled from the spec: `syscall-nr.h` is absent; the numbers are the small dense
enumeration, in the order in which the spec lists the operations. -/
def SYS_HALT : Nat := 0

/-- Modelled from the spec: `syscall-nr.h` is absent, see `SYS_HALT`. -/
def SYS_EXIT : Nat := 1

/-- Modelled from the spec: `syscall-nr.h` is absent, see `SYS_HALT`. -/
def SYS_FORK : Nat := 2

/-- Modelled from the spec: `syscall-nr.h` is absent, see `SYS_HALT`. -/
def SYS_EXEC : Nat := 3

/-- Modelled from the spec: `syscall-nr.h` is absent, see `SYS_HALT`. -/
def SYS_WAIT : Nat := 4

/-- Modelled from the spec: `syscall-nr.h` is absent, see `SYS_HALT`. -/
def SYS_CREATE : Nat := 5

/-- Modelled from the spec: `syscall-nr.h` is absent, see `SYS_HALT`. -/
def SYS_REMOVE : Nat := 6

/-- Modelled from the spec: `syscall-nr.h` is absent, see `SYS_HALT`. -/
def SYS_OPEN : Nat := 7

/-- Modelled from the spec: `syscall-nr.h` is absent, see `SYS_HALT`. -/
def SYS_FILESIZE : Nat := 8

/-- Modelled from the spec: `syscall-nr.h` is absent, see `SYS_HALT`. -/
def SYS_READ : Nat := 9

/-- Modelled from the spec: `syscall-nr.h` is absent, see `SYS_HALT`. -/
def SYS_WRITE : Nat := 10

/-- Modelled from the spec: `syscall-nr.h` is absent, see `SYS_HALT`. -/
def SYS_SEEK : Nat := 11

/-- Modelled from the spec: `syscall-nr.h` is absent, see `SYS_HALT`. -/
def SYS_TELL : Nat := 12

/-- Modelled from the spec: `syscall-nr.h` is absent, see `SYS_HALT`. -/
def SYS_CLOSE : Nat := 13

/-- Modelled from the spec: `threads/vaddr.h` is absent; a page is 4096 bytes. -/
def PGSIZE : Nat := 4096

/-! ## State -/

/-- The two thread states the system-call layer can observe: the running caller, and a
caller on which `thread_exit` has been called. -/
inductive thread_status where
  | THREAD_RUNNING
  | THREAD_DYING
  deriving DecidableEq

/-- The fields of `struct thread` that `syscall.c` touches. -/
structure thread where
  name : String
  exit_status : Int
  pml4 : Nat
  status : thread_status
  deriving DecidableEq

/-- The registers of `struct intr_frame` (`f->R`) that `syscall_handler` touches. -/
structure gp_registers where
  rax : Nat
  rdi : Nat
  rsi : Nat
  rdx : Nat
  deriving DecidableEq

/-- Observable interactions: entry of a case arm of the dispatcher that calls a handler, and
calls to the external subsystems. -/
inductive Event where
  | handler (nr : Nat)
  | power_off
  | process_fork (name : Nat)
  | palloc_get_page
  | process_exec (f_name : Nat) (contents : List Nat)
  | process_wait (pid : Int)
  | filesys_create (file : Nat) (initial_size : Nat)
  | filesys_remove (file : Nat)
  deriving DecidableEq

/-- The state a system call runs on: the interrupt frame `f->R`, the current thread, the
console (one entry per `printf` call), the trace of interactions and byte-addressed memory. -/
structure World where
  R : gp_registers
  curr : thread
  console : List String
  trace : List Event
  mem : Nat → Nat

/-- Outcome of a C call: it returned `v`, or control never came back. -/
inductive Res (α : Type) where
  | ret (v : α) (w : World)
  | noreturn (w : World)

/-- The state in which a call ended. -/
def Res.world {α : Type} : Res α → World
  | .ret _ w => w
  | .noreturn w => w

/-- Whether the call returned to its caller. -/
def Res.returned {α : Type} : Res α → Bool
  | .ret _ _ => true
  | .noreturn _ => false

/-- The value of a call that returned. -/
def Res.value {α : Type} : Res α → Option α
  | .ret v _ => some v
  | .noreturn _ => none

/-- Kernel code: a state transformer that may not return. -/
def K (α : Type) : Type := World → Res α

/-- Continue with `k` after a call that returned; a call that did not return ends the run. -/
def Res.andThen {α β : Type} : Res α → (α → K β) → Res β
  | .ret v w, k => k v w
  | .noreturn w, _ => .noreturn w

/-- Sequencing of kernel code: what follows a call runs only if the call returns. -/
def K.bind {α β : Type} (m : K α) (k : α → K β) : K β := fun w => (m w).andThen k

instance : Monad K where
  pure v := fun w => .ret v w
  bind := K.bind

/-- The external subsystems and the handlers whose bodies are not in `syscall.c`. -/
structure Env where
  /-- Lowest kernel virtual address (`threads/vaddr.h`, absent). -/
  KERN_BASE : Nat
  /-- Result of `pml4_get_page (pml4, addr)`: kernel address of the frame, 0 for NULL. -/
  pml4_get_page : Nat → Nat → Nat
  /-- Result of `process_fork (name, NULL)`. -/
  process_fork : Nat → Int
  /-- Result of `palloc_get_page (PAL_ZERO)`: address of a free page, 0 for NULL. -/
  palloc_get_page : Nat
  /-- Result of `process_exec (f_name)`; `none` when the image was replaced and the call
  does not return. -/
  process_exec : Nat → Option Int
  /-- Result of `process_wait (pid)`. -/
  process_wait : Int → Int
  /-- Result of `filesys_create (file, initial_size)`. -/
  filesys_create : Nat → Nat → Bool
  /-- Result of `filesys_remove (file)`. -/
  filesys_remove : Nat → Bool
  /-- Value found in the result register when `exec` runs off its end without `return`. -/
  indeterminate : Int
  /-- Handler `open` (declared in `syscall.h`, no body in the sources). -/
  sys_open : Nat → K Int
  /-- Handler `filesize` (declared in `syscall.h`, no body in the sources). -/
  filesize : Int → K Int
  /-- Handler `read` (declared in `syscall.h`, no body in the sources). -/
  read : Int → Nat → Nat → K Int
  /-- Handler `write` (declared in `syscall.h`, no body in the sources). -/
  write : Int → Nat → Nat → K Int
  /-- Handler `seek` (declared in `syscall.h`, no body in the sources). -/
  seek : Int → Nat → K Unit
  /-- Handler `tell` (declared in `syscall.h`, no body in the sources). -/
  tell : Int → K Nat
  /-- Handler `close` (declared in `syscall.h`, no body in the sources). -/
  close : Int → K Unit

/-! ## Primitives used by `syscall.c` -/

/-- Append an interaction to the trace. -/
def emit (e : Event) : K Unit := fun w =>
  .ret () { w with trace := w.trace ++ [e] }

/-- One `printf` call whose formatted output is `s`. -/
def printf (s : String) : K Unit := fun w =>
  .ret () { w with console := w.console ++ [s] }

/-- Modelled from the spec: `thread_exit` of `threads/thread.c` (absent) moves the calling
process to its terminated state and never returns. -/
def thread_exit : K Unit := fun w =>
  .noreturn { w with curr := { w.curr with status := .THREAD_DYING } }

/-- Modelled from the spec: `power_off` (absent) powers the machine down and never returns. -/
def power_off : K Unit := fun w =>
  .noreturn { w with trace := w.trace ++ [.power_off] }

/-- Modelled from the spec: macro `is_kernel_vaddr` of `threads/vaddr.h` (absent); kernel
space is everything at and above `KERN_BASE`. -/
def is_kernel_vaddr (env : Env) (addr : Nat) : Bool := decide (env.KERN_BASE ≤ addr)

/-- Text printed by `printf ("%s: exit(%d)\n", name, status)`. -/
def exit_message (name : String) (status : Int) : String :=
  name ++ ": exit(" ++ toString status ++ ")\n"

/-! ## The functions of `syscall.c` -/

/-- C `exit (status)`: record the status, print the termination message, `thread_exit`. -/
def exit (status : Int) : K Unit := fun w =>
  let w1 : World := { w with curr := { w.curr with exit_status := status } }
  (do printf (exit_message w1.curr.name status); thread_exit) w1

/-- C `check_address (addr)`. -/
def check_address (env : Env) (addr : Nat) : K Unit := fun w =>
  if addr = 0 || is_kernel_vaddr env addr || env.pml4_get_page w.curr.pml4 addr = 0 then
    exit (-1) w
  else
    .ret () w

/-- C `halt ()`. -/
def halt : K Unit := power_off

/-- Call of `process_fork (thread_name, NULL)`. -/
def process_fork (env : Env) (thread_name : Nat) : K Int := do
  emit (.process_fork thread_name)
  pure (env.process_fork thread_name)

/-- C `fork (thread_name)`. -/
def fork (env : Env) (thread_name : Nat) : K Int := do
  check_address env thread_name
  process_fork env thread_name

/-- Call of `process_wait (pid)`. -/
def process_wait (env : Env) (pid : Int) : K Int := do
  emit (.process_wait pid)
  pure (env.process_wait pid)

/-- C `wait (pid)`. -/
def wait (env : Env) (pid : Int) : K Int := process_wait env pid

/-- Call of `filesys_create (file, initial_size)`. -/
def filesys_create (env : Env) (file initial_size : Nat) : K Bool := do
  emit (.filesys_create file initial_size)
  pure (env.filesys_create file initial_size)

/-- C `create (file, initial_size)`. -/
def create (env : Env) (file initial_size : Nat) : K Bool := do
  check_address env file
  filesys_create env file initial_size

/-- Call of `filesys_remove (file)`. -/
def filesys_remove (env : Env) (file : Nat) : K Bool := do
  emit (.filesys_remove file)
  pure (env.filesys_remove file)

/-- C `remove (file)`. -/
def remove (env : Env) (file : Nat) : K Bool := do
  check_address env file
  filesys_remove env file

/-! ## `exec` and the library routines it uses -/

/-- Scan for the terminating NUL, at most `fuel` bytes ahead. -/
def strlen_from (mem : Nat → Nat) (s : Nat) : Nat → Nat
  | 0 => 0
  | fuel + 1 => if mem s = 0 then 0 else strlen_from mem (s + 1) fuel + 1

/-- Modelled from the spec: `strlen` of `lib/string.c` (absent), with its standard C meaning,
the number of bytes before the first NUL; the scan is bounded by the size of the 64-bit
address space. -/
def strlen (mem : Nat → Nat) (s : Nat) : Nat := strlen_from mem s (2 ^ 64)

/-- The bytes of the C string at `s`, without the terminating NUL. -/
def cstring (mem : Nat → Nat) (s : Nat) : List Nat :=
  (List.range (strlen mem s)).map fun i => mem (s + i)

/-- Store of one byte. -/
def store (mem : Nat → Nat) (addr val : Nat) : Nat → Nat :=
  fun a => if a = addr then val else mem a

/-- Modelled from the spec: `memcpy` of `lib/string.c` (absent), with its standard C meaning,
a forward byte-by-byte copy of `size` bytes. -/
def memcpy (mem : Nat → Nat) (dst src : Nat) : Nat → (Nat → Nat)
  | 0 => mem
  | size + 1 => memcpy (store mem dst (mem src)) (dst + 1) (src + 1) size

/-- Modelled from the spec: `strlcpy` of `lib/string.c` (absent), with its standard meaning:
when `size` is positive, copy `min (strlen src, size - 1)` bytes and terminate the copy with
a NUL. -/
def strlcpy (mem : Nat → Nat) (dst src size : Nat) : Nat → Nat :=
  let src_len := strlen mem src
  if 0 < size then
    let dst_len := if src_len < size - 1 then src_len else size - 1
    store (memcpy mem dst src dst_len) (dst + dst_len) 0
  else
    mem

/-- Zero-fill of the page at `page` (`PAL_ZERO`); nothing is filled when `page` is NULL. -/
def zero_page (mem : Nat → Nat) (page : Nat) : Nat → Nat :=
  fun a => if page ≠ 0 ∧ page ≤ a ∧ a < page + PGSIZE then 0 else mem a

/-- Call of `palloc_get_page (PAL_ZERO)`: the page handed out, if any, is zero-filled. -/
def palloc_get_page (env : Env) : K Nat := fun w =>
  let page := env.palloc_get_page
  .ret page { w with
    trace := w.trace ++ [.palloc_get_page]
    mem := zero_page w.mem page }

/-- Call of `process_exec (f_name)`; the trace records the string found at `f_name`. -/
def process_exec (env : Env) (f_name : Nat) : K Int := fun w =>
  let w1 : World := { w with trace := w.trace ++ [.process_exec f_name (cstring w.mem f_name)] }
  match env.process_exec f_name with
  | some v => .ret v w1
  | none => .noreturn w1

/-- The statement `strlcpy (cmd_copy, cmd_line, strlen (cmd_line) + 1)` of `exec`. -/
def exec_copy (cmd_copy cmd_line : Nat) : K Unit := fun w =>
  .ret () { w with
    mem := strlcpy w.mem cmd_copy cmd_line ((strlen w.mem cmd_line + 1) % 2 ^ 64) }

/-- C `exec (cmd_line)`. -/
def exec (env : Env) (cmd_line : Nat) : K Int := do
  check_address env cmd_line
  let cmd_copy ← palloc_get_page env
  if cmd_copy = 0 then
    pure (-1)
  else do
    exec_copy cmd_copy cmd_line
    let r ← process_exec env cmd_copy
    if r = -1 then
      pure (-1)
    else
      pure env.indeterminate

/-! ## The dispatcher -/

/-- Assignment `f->R.rax = v`. -/
def set_rax (v : Nat) : K Unit := fun w =>
  .ret () { w with R := { w.R with rax := v } }

/-- The `switch` statement of `syscall_handler`; the arguments are read from `R`, the
registers on entry. The arm of `SYS_CLOSE` has no `break` and runs on into `default`. -/
def dispatch (env : Env) (R : gp_registers) : K Unit :=
  if R.rax = SYS_HALT then do
    emit (.handler SYS_HALT)
    halt
  else if R.rax = SYS_EXIT then do
    emit (.handler SYS_EXIT)
    exit (to_int R.rdi)
  else if R.rax = SYS_FORK then do
    emit (.handler SYS_FORK)
    let v ← fork env R.rdi
    set_rax (of_int v)
  else if R.rax = SYS_EXEC then do
    emit (.handler SYS_EXEC)
    let v ← exec env R.rdi
    set_rax (of_int v)
  else if R.rax = SYS_WAIT then do
    emit (.handler SYS_WAIT)
    let v ← wait env (to_int R.rdi)
    set_rax (of_int v)
  else if R.rax = SYS_CREATE then do
    emit (.handler SYS_CREATE)
    let v ← create env R.rdi (to_unsigned R.rsi)
    set_rax (of_bool v)
  else if R.rax = SYS_REMOVE then do
    emit (.handler SYS_REMOVE)
    let v ← remove env R.rdi
    set_rax (of_bool v)
  else if R.rax = SYS_OPEN then do
    emit (.handler SYS_OPEN)
    let v ← env.sys_open R.rdi
    set_rax (of_int v)
  else if R.rax = SYS_FILESIZE then do
    emit (.handler SYS_FILESIZE)
    let v ← env.filesize (to_int R.rdi)
    set_rax (of_int v)
  else if R.rax = SYS_READ then do
    emit (.handler SYS_READ)
    let v ← env.read (to_int R.rdi) R.rsi (to_unsigned R.rdx)
    set_rax (of_int v)
  else if R.rax = SYS_WRITE then do
    emit (.handler SYS_WRITE)
    let v ← env.write (to_int R.rdi) R.rsi (to_unsigned R.rdx)
    set_rax (of_int v)
  else if R.rax = SYS_SEEK then do
    emit (.handler SYS_SEEK)
    env.seek (to_int R.rdi) (to_unsigned R.rsi)
  else if R.rax = SYS_TELL then do
    emit (.handler SYS_TELL)
    let v ← env.tell (to_int R.rdi)
    set_rax v
  else if R.rax = SYS_CLOSE then do
    emit (.handler SYS_CLOSE)
    env.close (to_int R.rdi)
    exit (-1)
  else
    exit (-1)

/-- C `syscall_handler (f)`: the `switch`, then `printf ("system call!\n")` and
`thread_exit ()`. -/
def syscall_handler (env : Env) : K Unit := fun w =>
  (do dispatch env w.R; printf "system call!\n"; thread_exit) w

/-! ## Vocabulary of the statements -/

/-- The state `exit (status)` leaves behind. -/
def exited (w : World) (status : Int) : World :=
  { w with
    curr := { w.curr with exit_status := status, status := .THREAD_DYING }
    console := w.console ++ [exit_message w.curr.name status] }

/-- The fourteen system-call numbers that have a case arm in `syscall_handler`. -/
def known_syscalls : List Nat :=
  [SYS_HALT, SYS_EXIT, SYS_FORK, SYS_EXEC, SYS_WAIT, SYS_CREATE, SYS_REMOVE, SYS_OPEN,
   SYS_FILESIZE, SYS_READ, SYS_WRITE, SYS_SEEK, SYS_TELL, SYS_CLOSE]

/-- What `check_address` rejects: a null pointer, a kernel address, an address without a
mapping in the page table of the current thread. -/
def bad_address (env : Env) (w : World) (addr : Nat) : Prop :=
  addr = 0 ∨ env.KERN_BASE ≤ addr ∨ env.pml4_get_page w.curr.pml4 addr = 0

instance (env : Env) (w : World) (addr : Nat) : Decidable (bad_address env w addr) := by
  unfold bad_address; infer_instance

/-- A NUL-terminated string of `n` bytes lies at `s`. -/
def IsCString (mem : Nat → Nat) (s n : Nat) : Prop :=
  (∀ i, i < n → mem (s + i) ≠ 0) ∧ mem (s + n) = 0

instance (mem : Nat → Nat) (s n : Nat) : Decidable (IsCString mem s n) := by
  unfold IsCString; infer_instance

/-- Memory after the allocation and the copy of `exec`. -/
def exec_mem (env : Env) (w : World) (cmd_line : Nat) : Nat → Nat :=
  strlcpy (zero_page w.mem env.palloc_get_page) env.palloc_get_page cmd_line
    ((strlen (zero_page w.mem env.palloc_get_page) cmd_line + 1) % 2 ^ 64)

/-- State in which `exec` leaves `process_exec`. -/
def exec_world (env : Env) (w : World) (cmd_line : Nat) : World :=
  { w with
    trace := w.trace ++ [.palloc_get_page,
      .process_exec env.palloc_get_page (cstring (exec_mem env w cmd_line) env.palloc_get_page)]
    mem := exec_mem env w cmd_line }

/-! ## Concrete machines, used to instantiate the theorems -/

/-- An environment with one mapped user page, `0x400000 .. 0x400fff`, in which every
subsystem call fails or returns a fixed value and every bodiless handler returns at once. -/
def demo_env : Env where
  KERN_BASE := 0x8004000000
  pml4_get_page := fun _ a =>
    if 0x400000 ≤ a ∧ a < 0x401000 then 0x8004200000 + (a - 0x400000) else 0
  process_fork := fun _ => 7
  palloc_get_page := 0x8004300000
  process_exec := fun _ => some (-1)
  process_wait := fun _ => -1
  filesys_create := fun _ _ => false
  filesys_remove := fun _ => false
  indeterminate := 0
  sys_open := fun _ => pure (-1)
  filesize := fun _ => pure (-1)
  read := fun _ _ _ => pure (-1)
  write := fun _ _ _ => pure (-1)
  seek := fun _ _ => pure ()
  tell := fun _ => pure 0
  close := fun _ => pure ()

/-- A running process `main` that traps with the given registers; the string `"ls"` lies at
`0x400010` on the mapped page, and every other byte is 0. -/
def demo_world (rax rdi rsi rdx : Nat) : World where
  R := { rax := rax, rdi := rdi, rsi := rsi, rdx := rdx }
  curr := { name := "main", exit_status := 0, pml4 := 1, status := .THREAD_RUNNING }
  console := []
  trace := []
  mem := fun a => if a = 0x400010 then 108 else if a = 0x400011 then 115 else 0

/-- An environment like `demo_env` whose one mapped user page is the last page of user
space, `0x8003fff000 .. 0x8003ffffff`, right below `KERN_BASE`. -/
def edge_env : Env :=
  { demo_env with
    pml4_get_page := fun _ a =>
      if 0x8003fff000 ≤ a ∧ a < 0x8004000000 then 0x8004200000 + (a - 0x8003fff000) else 0 }

/-- A running process `main` that traps with the given registers; the string `"abcdefgh"`
starts at `0x8003fffffa`, six bytes before the end of user space: its bytes `"abcdef"` lie
on the mapped user page, and `"gh"` and the terminator lie in kernel space, from `KERN_BASE`
on. -/
def edge_world (rax rdi rsi rdx : Nat) : World where
  R := { rax := rax, rdi := rdi, rsi := rsi, rdx := rdx }
  curr := { name := "main", exit_status := 0, pml4 := 1, status := .THREAD_RUNNING }
  console := []
  trace := []
  mem := fun a =>
    if 0x8003fffffa ≤ a ∧ a < 0x8004000002 then 97 + (a - 0x8003fffffa) else 0

/-- An environment like `demo_env` in which no page is free. -/
def no_page_env : Env := { demo_env with palloc_get_page := 0 }

/-- An environment like `demo_env` with two mapped user pages, `0x400000 .. 0x401fff`. -/
def two_page_env : Env :=
  { demo_env with
    pml4_get_page := fun _ a =>
      if 0x400000 ≤ a ∧ a < 0x402000 then 0x8004200000 + (a - 0x400000) else 0 }

/-- A running process `main` whose command line at `0x400000` is 5000 bytes `A` and a
terminator, all of it on the two mapped pages; the byte that follows the page which
`palloc_get_page` of `two_page_env` hands out, at `0x8004301000`, holds 238. -/
def long_world : World where
  R := { rax := SYS_EXEC, rdi := 0x400000, rsi := 0, rdx := 0 }
  curr := { name := "main", exit_status := 0, pml4 := 1, status := .THREAD_RUNNING }
  console := []
  trace := []
  mem := fun a =>
    if 0x400000 ≤ a ∧ a < 0x400000 + 5000 then 65 else if a = 0x8004301000 then 238 else 0

/-! ## Sequencing, `exit` and `check_address` -/

theorem bind_apply {α β : Type} (m : K α) (k : α → K β) (w : World) :
    (m >>= k) w = (m w).andThen k := rfl

theorem andThen_ret {α β : Type} (v : α) (w : World) (k : α → K β) :
    (Res.ret v w).andThen k = k v w := rfl

theorem andThen_noreturn {α β : Type} (w : World) (k : α → K β) :
    (Res.noreturn w : Res α).andThen k = .noreturn w := rfl

theorem ite_apply_world {α : Type} (c : Prop) [Decidable c] (a b : K α) (w : World) :
    (if c then a else b) w = if c then a w else b w := by
  split <;> rfl

theorem pure_apply {α : Type} (v : α) (w : World) : (pure v : K α) w = .ret v w := rfl

theorem exit_apply (status : Int) (w : World) :
    exit status w = .noreturn (exited w status) := rfl

theorem check_address_bad (env : Env) (w : World) (addr : Nat) (h : bad_address env w addr) :
    check_address env addr w = .noreturn (exited w (-1)) := by
  unfold bad_address at h
  unfold check_address is_kernel_vaddr
  rw [if_pos (by simpa [or_assoc] using h), exit_apply]

theorem check_address_good (env : Env) (w : World) (addr : Nat) (h : ¬ bad_address env w addr) :
    check_address env addr w = .ret () w := by
  unfold bad_address at h
  unfold check_address is_kernel_vaddr
  rw [if_neg (by simpa [or_assoc, and_assoc] using h)]

theorem to_int_of_int (s : Int) (h1 : -2 ^ 31 ≤ s) (h2 : s < 2 ^ 31) : to_int (of_int s) = s := by
  unfold to_int of_int
  norm_num at h1 h2 ⊢
  omega

theorem system_call_line_ne_exit_message (name : String) (status : Int) :
    "system call!\n" ≠ exit_message name status := by
  intro h
  have h1 := congrArg (fun t => t.data.reverse) h
  simp [exit_message, String.data_append] at h1

/-! ## Memory and the copy made by `exec` -/

theorem strlen_from_eq (mem : Nat → Nat) (n : Nat) :
    ∀ (s fuel : Nat), IsCString mem s n → n < fuel → strlen_from mem s fuel = n := by
  induction n with
  | zero =>
    intro s fuel h hf
    obtain ⟨f, rfl⟩ : ∃ f, fuel = f + 1 := ⟨fuel - 1, by omega⟩
    have h0 : mem s = 0 := by simpa using h.2
    simp [strlen_from, h0]
  | succ n ih =>
    intro s fuel h hf
    obtain ⟨f, rfl⟩ : ∃ f, fuel = f + 1 := ⟨fuel - 1, by omega⟩
    have h0 : mem s ≠ 0 := by simpa using h.1 0 (by omega)
    have h1 : IsCString mem (s + 1) n := by
      refine ⟨fun i hi => ?_, ?_⟩
      · have := h.1 (i + 1) (by omega)
        rwa [show s + 1 + i = s + (i + 1) by omega]
      · have := h.2
        rwa [show s + 1 + n = s + (n + 1) by omega]
    simp [strlen_from, h0, ih (s + 1) f h1 (by omega)]

theorem strlen_eq (mem : Nat → Nat) (s n : Nat) (h : IsCString mem s n) (hn : n < 2 ^ 64) :
    strlen mem s = n :=
  strlen_from_eq mem n s (2 ^ 64) h hn

theorem memcpy_apply (n : Nat) :
    ∀ (mem : Nat → Nat) (dst src a : Nat),
      (∀ i, i < n → src + i < dst ∨ dst + n ≤ src + i) →
      memcpy mem dst src n a =
        if dst ≤ a ∧ a < dst + n then mem (src + (a - dst)) else mem a := by
  induction n with
  | zero =>
    intro mem dst src a _
    have c : ¬ (dst ≤ a ∧ a < dst + 0) := by omega
    rw [memcpy, if_neg c]
  | succ n ih =>
    intro mem dst src a h
    have h1 : ∀ i, i < n → src + 1 + i < dst + 1 ∨ dst + 1 + n ≤ src + 1 + i := by
      intro i hi
      have := h (i + 1) (by omega)
      omega
    rw [memcpy, ih _ _ _ _ h1]
    by_cases c1 : dst + 1 ≤ a ∧ a < dst + 1 + n
    · have c2 : dst ≤ a ∧ a < dst + (n + 1) := by omega
      have c3 : src + 1 + (a - (dst + 1)) ≠ dst := by
        have := h (a - (dst + 1) + 1) (by omega)
        omega
      rw [if_pos c1, if_pos c2, store, if_neg c3]
      congr 1
      omega
    · rw [if_neg c1]
      by_cases c4 : a = dst
      · subst c4
        simp [store]
      · have c2 : ¬ (dst ≤ a ∧ a < dst + (n + 1)) := by omega
        rw [if_neg c2, store, if_neg c4]

theorem exec_good (env : Env) (w : World) (p : Nat) (h : ¬ bad_address env w p) :
    exec env p w =
      if env.palloc_get_page = 0 then
        .ret (-1) { w with
          trace := w.trace ++ [.palloc_get_page]
          mem := zero_page w.mem env.palloc_get_page }
      else
        match env.process_exec env.palloc_get_page with
        | some v => .ret (if v = -1 then -1 else env.indeterminate) (exec_world env w p)
        | none => .noreturn (exec_world env w p) := by
  unfold exec
  simp only [bind_apply, check_address_good env w p h, andThen_ret, palloc_get_page]
  by_cases h0 : env.palloc_get_page = 0
  · simp only [h0, if_true, pure_apply]
  · simp only [h0, if_false, bind_apply, exec_copy, andThen_ret, process_exec]
    cases hx : env.process_exec env.palloc_get_page with
    | none => simp [andThen_noreturn, exec_world, exec_mem]
    | some v =>
      by_cases hv : v = -1
      · simp [andThen_ret, exec_world, exec_mem, hv, pure_apply]
      · simp [andThen_ret, exec_world, exec_mem, hv, pure_apply]

theorem exec_mem_copy (env : Env) (w : World) (p n : Nat) (hp : p ≠ 0)
    (hstr : IsCString w.mem p n) (huser : p + n < env.KERN_BASE)
    (hspace : env.KERN_BASE ≤ 2 ^ 64) (hk : env.KERN_BASE ≤ env.palloc_get_page) :
    (∀ i, i < n → exec_mem env w p (env.palloc_get_page + i) = w.mem (p + i)) ∧
      exec_mem env w p (env.palloc_get_page + n) = 0 ∧
      (∀ a, a < env.palloc_get_page → exec_mem env w p a = w.mem a) := by
  have hz : ∀ a, a < env.palloc_get_page → zero_page w.mem env.palloc_get_page a = w.mem a := by
    intro a ha
    have c : ¬ (env.palloc_get_page ≠ 0 ∧ env.palloc_get_page ≤ a ∧
        a < env.palloc_get_page + PGSIZE) := by omega
    rw [zero_page, if_neg c]
  have hstr1 : IsCString (zero_page w.mem env.palloc_get_page) p n := by
    refine ⟨fun i hi => ?_, ?_⟩
    · rw [hz _ (by omega)]; exact hstr.1 i hi
    · rw [hz _ (by omega)]; exact hstr.2
  have hlen : strlen (zero_page w.mem env.palloc_get_page) p = n :=
    strlen_eq _ p n hstr1 (by omega)
  have hsize : (n + 1) % 2 ^ 64 = n + 1 := Nat.mod_eq_of_lt (by omega)
  have hdis : ∀ i, i < n →
      p + i < env.palloc_get_page ∨ env.palloc_get_page + n ≤ p + i := by
    intro i hi; omega
  have hmem : exec_mem env w p =
      store (memcpy (zero_page w.mem env.palloc_get_page) env.palloc_get_page p n)
        (env.palloc_get_page + n) 0 := by
    unfold exec_mem strlcpy
    rw [hlen, hsize]
    simp
  rw [hmem]
  refine ⟨fun i hi => ?_, ?_, fun a ha => ?_⟩
  · have c1 : env.palloc_get_page + i ≠ env.palloc_get_page + n := by omega
    have c2 : env.palloc_get_page ≤ env.palloc_get_page + i ∧
        env.palloc_get_page + i < env.palloc_get_page + n := by omega
    rw [store, if_neg c1, memcpy_apply n _ _ _ _ hdis, if_pos c2, Nat.add_sub_cancel_left,
      hz _ (by omega)]
  · simp [store]
  · have c1 : a ≠ env.palloc_get_page + n := by omega
    have c2 : ¬ (env.palloc_get_page ≤ a ∧ a < env.palloc_get_page + n) := by omega
    rw [store, if_neg c1, memcpy_apply n _ _ _ _ hdis, if_neg c2, hz _ ha]

theorem exec_mem_cstring (env : Env) (w : World) (p n : Nat) (hp : p ≠ 0)
    (hstr : IsCString w.mem p n) (huser : p + n < env.KERN_BASE)
    (hspace : env.KERN_BASE ≤ 2 ^ 64) (hk : env.KERN_BASE ≤ env.palloc_get_page) :
    cstring (exec_mem env w p) env.palloc_get_page = cstring w.mem p := by
  obtain ⟨h1, h2, _⟩ := exec_mem_copy env w p n hp hstr huser hspace hk
  have hc : IsCString (exec_mem env w p) env.palloc_get_page n :=
    ⟨fun i hi => by rw [h1 i hi]; exact hstr.1 i hi, h2⟩
  unfold cstring
  rw [strlen_eq _ _ n hc (by omega), strlen_eq _ _ n hstr (by omega)]
  apply List.map_congr_left
  intro i hi
  exact h1 i (List.mem_range.mp hi)

theorem long_world_string : IsCString long_world.mem 0x400000 5000 := by
  constructor
  · intro i hi
    have c : 0x400000 ≤ 0x400000 + i ∧ 0x400000 + i < 0x400000 + 5000 := by omega
    simp only [long_world, if_pos c]
    decide
  · decide

/-! ## Claims -/

/-- C1: a request whose number is none of the fourteen known codes ends in the `default`
arm: the caller is terminated with exit status -1 and its termination message, and nothing
else happened, the trace of handler entries and subsystem calls is the one on entry. -/
theorem unknown_syscall_terminates (env : Env) (w : World) (h : w.R.rax ∉ known_syscalls) :
    syscall_handler env w = .noreturn (exited w (-1)) ∧
      (exited w (-1)).curr.exit_status = -1 ∧
      (exited w (-1)).curr.status = .THREAD_DYING ∧
      (exited w (-1)).trace = w.trace := by
  refine ⟨?_, rfl, rfl, rfl⟩
  simp only [known_syscalls, List.mem_cons, List.mem_singleton, not_or, List.not_mem_nil,
    not_false_eq_true, and_true] at h
  obtain ⟨h0, h1, h2, h3, h4, h5, h6, h7, h8, h9, h10, h11, h12, h13⟩ := h
  unfold syscall_handler dispatch
  simp only [ite_apply_world, h0, h1, h2, h3, h4, h5, h6, h7, h8, h9, h10, h11, h12, h13,
    if_false, bind_apply, exit_apply, andThen_noreturn]

/-- Instance of C1: the unknown number 14. -/
theorem unknown_syscall_terminates_witness :
    (demo_world 14 0 0 0).R.rax ∉ known_syscalls ∧
      syscall_handler demo_env (demo_world 14 0 0 0)
        = .noreturn (exited (demo_world 14 0 0 0) (-1)) :=
  ⟨by decide, (unknown_syscall_terminates demo_env (demo_world 14 0 0 0) (by decide)).1⟩

/-- C2: `check_address` terminates the caller with exit status -1 exactly when the address
is null, a kernel address or unmapped; otherwise it returns and the state is the one it was
called in. -/
theorem check_address_spec (env : Env) (w : World) (addr : Nat) :
    check_address env addr w =
        (if bad_address env w addr then
          .noreturn { w with
            curr := { w.curr with exit_status := -1, status := .THREAD_DYING }
            console := w.console ++ [exit_message w.curr.name (-1)] }
        else .ret () w) ∧
      ((check_address env addr w).returned = false ↔ bad_address env w addr) := by
  by_cases h : bad_address env w addr
  · rw [check_address_bad env w addr h, if_pos h]
    exact ⟨rfl, by simp [Res.returned, h]⟩
  · rw [check_address_good env w addr h, if_neg h]
    exact ⟨rfl, by simp [Res.returned, h]⟩

/-- C3 as stated fails: the string `"abcdefgh"` at `0x8003fffffa` starts at a mapped user
address and its bytes from offset 6 on, terminator included, lie in kernel space, yet
`fork`, `create` and `remove` pass validation, call their subsystem with that pointer and
return with the caller running and its exit status untouched. -/
theorem string_tail_not_validated :
    ¬ bad_address edge_env (edge_world SYS_FORK 0x8003fffffa 0 0) 0x8003fffffa ∧
      strlen (edge_world SYS_FORK 0x8003fffffa 0 0).mem 0x8003fffffa = 8 ∧
      is_kernel_vaddr edge_env (0x8003fffffa + 6) = true ∧
      (fork edge_env 0x8003fffffa (edge_world SYS_FORK 0x8003fffffa 0 0)).value = some 7 ∧
      (fork edge_env 0x8003fffffa (edge_world SYS_FORK 0x8003fffffa 0 0)).world.curr.status
        = .THREAD_RUNNING ∧
      (fork edge_env 0x8003fffffa (edge_world SYS_FORK 0x8003fffffa 0 0)).world.curr.exit_status
        = 0 ∧
      (fork edge_env 0x8003fffffa (edge_world SYS_FORK 0x8003fffffa 0 0)).world.trace
        = [.process_fork 0x8003fffffa] ∧
      (create edge_env 0x8003fffffa 0 (edge_world SYS_CREATE 0x8003fffffa 0 0)).value
        = some false ∧
      (create edge_env 0x8003fffffa 0 (edge_world SYS_CREATE 0x8003fffffa 0 0)).world.curr.status
        = .THREAD_RUNNING ∧
      (create edge_env 0x8003fffffa 0 (edge_world SYS_CREATE 0x8003fffffa 0 0)).world.trace
        = [.filesys_create 0x8003fffffa 0] ∧
      (remove edge_env 0x8003fffffa (edge_world SYS_REMOVE 0x8003fffffa 0 0)).value
        = some false ∧
      (remove edge_env 0x8003fffffa (edge_world SYS_REMOVE 0x8003fffffa 0 0)).world.curr.status
        = .THREAD_RUNNING ∧
      (remove edge_env 0x8003fffffa (edge_world SYS_REMOVE 0x8003fffffa 0 0)).world.trace
        = [.filesys_remove 0x8003fffffa] := by
  refine ⟨by decide, by decide, by decide, by decide, by decide, by decide, by decide,
    by decide, by decide, by decide, by decide, by decide, by decide⟩

/-- C3 as amended: validation looks at the address `p` alone. When `p` is null, a kernel
address or unmapped, each of `fork`, `exec`, `create` and `remove` terminates the caller with
exit status -1. When `p` is a mapped user address, whatever the bytes after it are, `fork`,
`create` and `remove` call their subsystem with `p` and return its result, `exec` goes on to
`palloc_get_page`, and none of them touches the thread or the console. -/
theorem validation_checks_first_byte_only (env : Env) (w : World) (p size : Nat) :
    (bad_address env w p →
      (fork env p w).returned = false ∧ (fork env p w).world.curr.exit_status = -1 ∧
      (fork env p w).world.curr.status = .THREAD_DYING ∧
      (exec env p w).returned = false ∧ (exec env p w).world.curr.exit_status = -1 ∧
      (exec env p w).world.curr.status = .THREAD_DYING ∧
      (create env p size w).returned = false ∧
      (create env p size w).world.curr.exit_status = -1 ∧
      (create env p size w).world.curr.status = .THREAD_DYING ∧
      (remove env p w).returned = false ∧ (remove env p w).world.curr.exit_status = -1 ∧
      (remove env p w).world.curr.status = .THREAD_DYING) ∧
    (¬ bad_address env w p →
      fork env p w
        = .ret (env.process_fork p) { w with trace := w.trace ++ [.process_fork p] } ∧
      create env p size w
        = .ret (env.filesys_create p size)
            { w with trace := w.trace ++ [.filesys_create p size] } ∧
      remove env p w
        = .ret (env.filesys_remove p) { w with trace := w.trace ++ [.filesys_remove p] } ∧
      (exec env p w).world.curr = w.curr ∧
      (exec env p w).world.console = w.console ∧
      ∃ rest, (exec env p w).world.trace = w.trace ++ .palloc_get_page :: rest) := by
  constructor
  · intro h
    have hf : fork env p w = .noreturn (exited w (-1)) := by
      unfold fork; simp only [bind_apply, check_address_bad env w p h, andThen_noreturn]
    have he : exec env p w = .noreturn (exited w (-1)) := by
      unfold exec; simp only [bind_apply, check_address_bad env w p h, andThen_noreturn]
    have hc : create env p size w = .noreturn (exited w (-1)) := by
      unfold create; simp only [bind_apply, check_address_bad env w p h, andThen_noreturn]
    have hr : remove env p w = .noreturn (exited w (-1)) := by
      unfold remove; simp only [bind_apply, check_address_bad env w p h, andThen_noreturn]
    rw [hf, he, hc, hr]
    exact ⟨rfl, rfl, rfl, rfl, rfl, rfl, rfl, rfl, rfl, rfl, rfl, rfl⟩
  · intro h
    refine ⟨?_, ?_, ?_, ?_⟩
    · unfold fork process_fork
      simp only [bind_apply, check_address_good env w p h, andThen_ret, emit, pure_apply]
    · unfold create filesys_create
      simp only [bind_apply, check_address_good env w p h, andThen_ret, emit, pure_apply]
    · unfold remove filesys_remove
      simp only [bind_apply, check_address_good env w p h, andThen_ret, emit, pure_apply]
    · rw [exec_good env w p h]
      by_cases h0 : env.palloc_get_page = 0
      · rw [if_pos h0]
        exact ⟨rfl, rfl, [], rfl⟩
      · rw [if_neg h0]
        cases env.process_exec env.palloc_get_page with
        | none => exact ⟨rfl, rfl, _, rfl⟩
        | some v => exact ⟨rfl, rfl, _, rfl⟩

/-- Instance of C3 as amended: the mapped address `0x400010` and the unmapped `0x500000`. -/
theorem validation_checks_first_byte_only_witness :
    (¬ bad_address demo_env (demo_world SYS_FORK 0x400010 0 0) 0x400010 ∧
      fork demo_env 0x400010 (demo_world SYS_FORK 0x400010 0 0)
        = .ret (demo_env.process_fork 0x400010)
            { demo_world SYS_FORK 0x400010 0 0 with
              trace := (demo_world SYS_FORK 0x400010 0 0).trace ++ [.process_fork 0x400010] }) ∧
    (bad_address demo_env (demo_world SYS_FORK 0x500000 0 0) 0x500000 ∧
      (fork demo_env 0x500000 (demo_world SYS_FORK 0x500000 0 0)).world.curr.exit_status
        = -1) :=
  ⟨⟨by decide,
    ((validation_checks_first_byte_only demo_env (demo_world SYS_FORK 0x400010 0 0)
      0x400010 0).2 (by decide)).1⟩,
   ⟨by decide,
    ((validation_checks_first_byte_only demo_env (demo_world SYS_FORK 0x500000 0 0)
      0x500000 0).1 (by decide)).2.1⟩⟩

/-- C4: when the pointer is null, a kernel address or unmapped, each of `fork`, `exec`,
`create` and `remove` ends in `exit (-1)` taken in the state of the call: the caller is
terminated with exit status -1, and the trace and memory are the ones on entry, so no
subsystem was called and no page was allocated. -/
theorem bad_pointer_no_effect (env : Env) (w : World) (p size : Nat)
    (h : bad_address env w p) :
    fork env p w = .noreturn (exited w (-1)) ∧
      exec env p w = .noreturn (exited w (-1)) ∧
      create env p size w = .noreturn (exited w (-1)) ∧
      remove env p w = .noreturn (exited w (-1)) ∧
      (exited w (-1)).curr.exit_status = -1 ∧
      (exited w (-1)).curr.status = .THREAD_DYING ∧
      (exited w (-1)).trace = w.trace ∧
      (exited w (-1)).mem = w.mem := by
  refine ⟨?_, ?_, ?_, ?_, rfl, rfl, rfl, rfl⟩
  · unfold fork; simp only [bind_apply, check_address_bad env w p h, andThen_noreturn]
  · unfold exec; simp only [bind_apply, check_address_bad env w p h, andThen_noreturn]
  · unfold create; simp only [bind_apply, check_address_bad env w p h, andThen_noreturn]
  · unfold remove; simp only [bind_apply, check_address_bad env w p h, andThen_noreturn]

/-- Instance of C4: the unmapped user address `0x500000`. -/
theorem bad_pointer_no_effect_witness :
    bad_address demo_env (demo_world SYS_CREATE 0x500000 0 0) 0x500000 ∧
      (create demo_env 0x500000 0 (demo_world SYS_CREATE 0x500000 0 0)).world.trace = [] ∧
      (create demo_env 0x500000 0 (demo_world SYS_CREATE 0x500000 0 0)).world.curr.exit_status
        = -1 :=
  ⟨by decide,
   by rw [(bad_pointer_no_effect demo_env (demo_world SYS_CREATE 0x500000 0 0) 0x500000 0
      (by decide)).2.2.1]; exact ⟨rfl, rfl⟩⟩

/-- C5: `exit (s)` records `s` as the exit status of the caller, prints the line
`<name>: exit(<s>)`, leaves the caller terminated and does not return; a `SYS_EXIT` request
records the `int` held by `rdi`, which is `s` when `rdi` holds the 32-bit value `s`. -/
theorem exit_records_status (env : Env) (w : World) (s : Int) :
    exit s w = .noreturn { w with
        curr := { w.curr with exit_status := s, status := .THREAD_DYING }
        console := w.console ++ [w.curr.name ++ ": exit(" ++ toString s ++ ")\n"] } ∧
      (w.R.rax = SYS_EXIT →
        syscall_handler env w = .noreturn { w with
          curr := { w.curr with exit_status := to_int w.R.rdi, status := .THREAD_DYING }
          console := w.console ++ [w.curr.name ++ ": exit(" ++ toString (to_int w.R.rdi) ++ ")\n"]
          trace := w.trace ++ [.handler SYS_EXIT] }) ∧
      (-2 ^ 31 ≤ s → s < 2 ^ 31 → w.R.rdi = of_int s → to_int w.R.rdi = s) := by
  refine ⟨rfl, ?_, ?_⟩
  · intro h
    unfold syscall_handler dispatch
    simp only [h, ite_apply_world, bind_apply, emit, exit_apply, andThen_ret,
      andThen_noreturn]
    simp [SYS_EXIT, SYS_HALT, exited, exit_message, andThen_noreturn]
  · intro h1 h2 h3
    rw [h3]; exact to_int_of_int s h1 h2

/-- Instance of C5: `exit (-1)` requested through the dispatcher by the process `main`. -/
theorem exit_records_status_witness :
    (demo_world SYS_EXIT (2 ^ 64 - 1) 0 0).R.rax = SYS_EXIT ∧
      (syscall_handler demo_env (demo_world SYS_EXIT (2 ^ 64 - 1) 0 0)).world.curr.exit_status
        = -1 ∧
      (syscall_handler demo_env (demo_world SYS_EXIT (2 ^ 64 - 1) 0 0)).world.console
        = ["main: exit(-1)\n"] :=
  ⟨rfl,
   by rw [(exit_records_status demo_env (demo_world SYS_EXIT (2 ^ 64 - 1) 0 0) 0).2.1 rfl]
      exact ⟨by decide, by decide⟩⟩

/-- C6, evaluated on the code: a `SYS_WAIT` request leaves the caller terminated through the
`thread_exit ()` that follows the `switch`, and the only line printed during the dispatch
is `system call!`, which is not a termination message: none was emitted. -/
theorem wait_terminates_without_message (env : Env) (w : World) (h : w.R.rax = SYS_WAIT) :
    (syscall_handler env w).world.curr.status = .THREAD_DYING ∧
      (syscall_handler env w).world.curr.exit_status = w.curr.exit_status ∧
      (syscall_handler env w).world.console = w.console ++ ["system call!\n"] ∧
      ∀ status : Int, "system call!\n" ≠ exit_message w.curr.name status := by
  have e : syscall_handler env w = .noreturn { w with
      R := { w.R with rax := of_int (env.process_wait (to_int w.R.rdi)) }
      curr := { w.curr with status := .THREAD_DYING }
      console := w.console ++ ["system call!\n"]
      trace := w.trace ++ [.handler SYS_WAIT, .process_wait (to_int w.R.rdi)] } := by
    unfold syscall_handler dispatch
    simp [h, SYS_HALT, SYS_EXIT, SYS_FORK, SYS_EXEC, SYS_WAIT, ite_apply_world, bind_apply,
      pure_apply, emit, wait, process_wait, set_rax, printf, thread_exit, andThen_ret]
  rw [e]
  exact ⟨rfl, rfl, rfl, fun status => system_call_line_ne_exit_message _ status⟩

/-- Instance of C6: `wait (5)` requested by the process `main`. -/
theorem wait_terminates_without_message_witness :
    (demo_world SYS_WAIT 5 0 0).R.rax = SYS_WAIT ∧
      (syscall_handler demo_env (demo_world SYS_WAIT 5 0 0)).world.curr.status
        = .THREAD_DYING ∧
      (syscall_handler demo_env (demo_world SYS_WAIT 5 0 0)).world.console
        = [] ++ ["system call!\n"] :=
  ⟨rfl, (wait_terminates_without_message demo_env (demo_world SYS_WAIT 5 0 0) rfl).1,
    (wait_terminates_without_message demo_env (demo_world SYS_WAIT 5 0 0) rfl).2.2.1⟩

/-- C7, evaluated on the code: in a `SYS_CLOSE` request, once `close (fd)` has returned the
dispatcher runs on into the `default` arm and executes `exit (-1)` in the state `close`
left: the caller is terminated with exit status -1. -/
theorem close_falls_through (env : Env) (w w1 : World) (h : w.R.rax = SYS_CLOSE)
    (hclose : env.close (to_int w.R.rdi) { w with trace := w.trace ++ [.handler SYS_CLOSE] }
      = .ret () w1) :
    syscall_handler env w = .noreturn { w1 with
      curr := { w1.curr with exit_status := -1, status := .THREAD_DYING }
      console := w1.console ++ [exit_message w1.curr.name (-1)] } := by
  unfold syscall_handler dispatch
  simp only [h, ite_apply_world, bind_apply, emit, andThen_ret, hclose, exit_apply,
    andThen_noreturn]
  simp [SYS_HALT, SYS_EXIT, SYS_FORK, SYS_EXEC, SYS_WAIT, SYS_CREATE, SYS_REMOVE, SYS_OPEN,
    SYS_FILESIZE, SYS_READ, SYS_WRITE, SYS_SEEK, SYS_TELL, SYS_CLOSE, exited, andThen_noreturn]

/-- Instance of C7: `close (3)` requested by the process `main`, with a `close` that
returns at once. -/
theorem close_falls_through_witness :
    (demo_world SYS_CLOSE 3 0 0).R.rax = SYS_CLOSE ∧
      (syscall_handler demo_env (demo_world SYS_CLOSE 3 0 0)).world.curr.exit_status = -1 ∧
      (syscall_handler demo_env (demo_world SYS_CLOSE 3 0 0)).world.console
        = ["main: exit(-1)\n"] ∧
      (syscall_handler demo_env (demo_world SYS_CLOSE 3 0 0)).world.trace
        = [.handler SYS_CLOSE] :=
  ⟨rfl,
   by rw [close_falls_through demo_env (demo_world SYS_CLOSE 3 0 0) _ rfl rfl]
      exact ⟨rfl, by decide, rfl⟩⟩

/-- C8, evaluated on the code: for a `SYS_WAIT` request, and for a `SYS_CREATE` request whose
path pointer passes `check_address`, the value of the handler is stored in `rax`, and then
the caller is terminated by the `thread_exit ()` that follows the `switch`. -/
theorem result_stored_then_terminated (env : Env) (w : World) :
    (w.R.rax = SYS_WAIT →
      syscall_handler env w = .noreturn { w with
        R := { w.R with rax := of_int (env.process_wait (to_int w.R.rdi)) }
        curr := { w.curr with status := .THREAD_DYING }
        console := w.console ++ ["system call!\n"]
        trace := w.trace ++ [.handler SYS_WAIT, .process_wait (to_int w.R.rdi)] }) ∧
    (w.R.rax = SYS_CREATE → ¬ bad_address env w w.R.rdi →
      syscall_handler env w = .noreturn { w with
        R := { w.R with rax := of_bool (env.filesys_create w.R.rdi (to_unsigned w.R.rsi)) }
        curr := { w.curr with status := .THREAD_DYING }
        console := w.console ++ ["system call!\n"]
        trace := w.trace ++
          [.handler SYS_CREATE, .filesys_create w.R.rdi (to_unsigned w.R.rsi)] }) := by
  constructor
  · intro h
    unfold syscall_handler dispatch
    simp [h, SYS_HALT, SYS_EXIT, SYS_FORK, SYS_EXEC, SYS_WAIT, ite_apply_world, bind_apply,
      pure_apply, emit, wait, process_wait, set_rax, printf, thread_exit, andThen_ret]
  · intro h hp
    have hp1 : ∀ t, ¬ bad_address env { w with trace := t } w.R.rdi := fun _ => hp
    unfold syscall_handler dispatch
    simp [h, SYS_HALT, SYS_EXIT, SYS_FORK, SYS_EXEC, SYS_WAIT, SYS_CREATE, ite_apply_world,
      bind_apply, pure_apply, emit, create, filesys_create, set_rax, printf, thread_exit,
      andThen_ret, check_address_good env _ _ (hp1 _)]

/-- Instance of C8: `wait (5)` returning -1 and `create ("ls", 0)` returning false. -/
theorem result_stored_then_terminated_witness :
    ((syscall_handler demo_env (demo_world SYS_WAIT 5 0 0)).world.R.rax = 2 ^ 64 - 1 ∧
      (syscall_handler demo_env (demo_world SYS_WAIT 5 0 0)).world.curr.status
        = .THREAD_DYING) ∧
    ((syscall_handler demo_env (demo_world SYS_CREATE 0x400010 0 0)).world.R.rax = 0 ∧
      (syscall_handler demo_env (demo_world SYS_CREATE 0x400010 0 0)).world.curr.status
        = .THREAD_DYING) :=
  ⟨by rw [(result_stored_then_terminated demo_env (demo_world SYS_WAIT 5 0 0)).1 rfl]
      exact ⟨by decide, rfl⟩,
   by rw [(result_stored_then_terminated demo_env (demo_world SYS_CREATE 0x400010 0 0)).2 rfl
        (by decide)]
      exact ⟨by decide, rfl⟩⟩

/-- C9: for a command line that passes `check_address` and is a NUL-terminated string in
user space: when `palloc_get_page` returns NULL, `exec` returns -1 and the only subsystem
call is that allocation; when it returns a kernel page and `process_exec` reports -1, `exec`
returns -1 after exactly one `process_exec` call, made on that page, which then holds a
string equal to the command line, user memory being as it was. -/
theorem exec_failure_paths (env : Env) (w : World) (p n : Nat)
    (hvalid : ¬ bad_address env w p) (hstr : IsCString w.mem p n)
    (huser : p + n < env.KERN_BASE) (hspace : env.KERN_BASE ≤ 2 ^ 64) :
    (env.palloc_get_page = 0 →
      exec env p w = .ret (-1) { w with trace := w.trace ++ [.palloc_get_page] }) ∧
    (env.KERN_BASE ≤ env.palloc_get_page →
      env.process_exec env.palloc_get_page = some (-1) →
      ∃ w1, exec env p w = .ret (-1) w1 ∧
        w1.trace = w.trace ++
          [.palloc_get_page, .process_exec env.palloc_get_page (cstring w.mem p)] ∧
        cstring w1.mem env.palloc_get_page = cstring w.mem p ∧
        (∀ a, a < env.KERN_BASE → w1.mem a = w.mem a) ∧
        w1.curr = w.curr ∧ w1.console = w.console ∧ w1.R = w.R) := by
  have hp : p ≠ 0 := fun h0 => hvalid (Or.inl h0)
  constructor
  · intro h0
    rw [exec_good env w p hvalid, if_pos h0, h0]
    have hz : zero_page w.mem 0 = w.mem := by
      funext a; simp [zero_page]
    rw [hz]
  · intro hk hx
    have h0 : env.palloc_get_page ≠ 0 := by omega
    refine ⟨exec_world env w p, ?_, ?_, ?_, ?_, rfl, rfl, rfl⟩
    · rw [exec_good env w p hvalid, if_neg h0, hx]
      simp
    · simp only [exec_world, exec_mem_cstring env w p n hp hstr huser hspace hk]
    · exact exec_mem_cstring env w p n hp hstr huser hspace hk
    · intro a ha
      exact (exec_mem_copy env w p n hp hstr huser hspace hk).2.2 a (by omega)

/-- Instance of C9: `exec ("ls")` with no free page, and with a free page and a failing
`process_exec`. -/
theorem exec_failure_paths_witness :
    (¬ bad_address no_page_env (demo_world SYS_EXEC 0x400010 0 0) 0x400010 ∧
      IsCString (demo_world SYS_EXEC 0x400010 0 0).mem 0x400010 2 ∧
      exec no_page_env 0x400010 (demo_world SYS_EXEC 0x400010 0 0)
        = .ret (-1) { demo_world SYS_EXEC 0x400010 0 0 with
            trace := (demo_world SYS_EXEC 0x400010 0 0).trace ++ [.palloc_get_page] }) ∧
    (cstring (demo_world SYS_EXEC 0x400010 0 0).mem 0x400010 = [108, 115] ∧
      ∃ w1, exec demo_env 0x400010 (demo_world SYS_EXEC 0x400010 0 0) = .ret (-1) w1 ∧
        w1.trace = (demo_world SYS_EXEC 0x400010 0 0).trace ++
          [.palloc_get_page, .process_exec demo_env.palloc_get_page
            (cstring (demo_world SYS_EXEC 0x400010 0 0).mem 0x400010)] ∧
        cstring w1.mem demo_env.palloc_get_page
          = cstring (demo_world SYS_EXEC 0x400010 0 0).mem 0x400010) :=
  ⟨⟨by decide, by decide,
    (exec_failure_paths no_page_env (demo_world SYS_EXEC 0x400010 0 0) 0x400010 2
      (by decide) (by decide) (by decide) (by decide)).1 rfl⟩,
   ⟨by decide,
    (exec_failure_paths demo_env (demo_world SYS_EXEC 0x400010 0 0) 0x400010 2
      (by decide) (by decide) (by decide) (by decide)).2 (by decide) rfl
      |>.imp fun _ h => ⟨h.1, h.2.1, h.2.2.1⟩⟩⟩

/-- C10, evaluated on the code: for a command line of `n` bytes that passes `check_address`,
the copy of `exec` stores all `n + 1` bytes of the string, terminator included, from the
start of the page on, whatever `n` is; the bound handed to `strlcpy` is the length of the
source, so from `n = PGSIZE` on the copy runs past the end of the page. -/
theorem exec_copy_unbounded (env : Env) (w : World) (p n : Nat)
    (hvalid : ¬ bad_address env w p) (hstr : IsCString w.mem p n)
    (huser : p + n < env.KERN_BASE) (hspace : env.KERN_BASE ≤ 2 ^ 64)
    (hk : env.KERN_BASE ≤ env.palloc_get_page) :
    ∀ i, i ≤ n → (exec env p w).world.mem (env.palloc_get_page + i) = w.mem (p + i) := by
  have hp : p ≠ 0 := fun h0 => hvalid (Or.inl h0)
  have h0 : env.palloc_get_page ≠ 0 := by omega
  have hm : (exec env p w).world.mem = exec_mem env w p := by
    rw [exec_good env w p hvalid, if_neg h0]
    cases env.process_exec env.palloc_get_page <;> rfl
  obtain ⟨h1, h2, _⟩ := exec_mem_copy env w p n hp hstr huser hspace hk
  intro i hi
  rw [hm]
  by_cases c : i = n
  · subst c
    rw [h2, hstr.2]
  · exact h1 i (by omega)

/-- Instance of C10: a command line of 5000 bytes; the byte that follows the allocated page
held 238 before the call and holds the byte `A` of the command line after it. -/
theorem exec_copy_unbounded_witness :
    ¬ bad_address two_page_env long_world 0x400000 ∧
      two_page_env.palloc_get_page + PGSIZE = 0x8004301000 ∧
      long_world.mem 0x8004301000 = 238 ∧
      (exec two_page_env 0x400000 long_world).world.mem 0x8004301000 = 65 :=
  ⟨by decide, by decide, by decide,
    (exec_copy_unbounded two_page_env long_world 0x400000 5000 (by decide) long_world_string
      (by decide) (by decide) (by decide) 4096 (by decide)).trans (by decide)⟩

end Syscall
